import Mathlib

/-!
Shallow embedding of the student CRUD backend (`src/index.js`, pool module
`db.js`).  The Express handlers are modelled as pure functions over an
explicit database state; the MySQL pool is an external collaborator, so a
raised persistence error is injected through an `Option String` parameter
(`none` = the query succeeds, `some e` = the first SQL statement of the
handler throws the error whose `String(e)` rendering is `e`).  Handlers
whose source wraps the queries in `try/catch` always return `Except.ok`;
handlers without a `try/catch` (list, get-by-id, delete) return
`Except.error e`, modelling the rejection escaping the handler.
-/

deriving instance DecidableEq for Except

namespace StudentApi

/-- Row of the `students` table.  Timestamps are server-managed opaque
values, modelled as naturals. -/
structure Student where
  id : Nat
  student_code : String
  full_name : String
  email : Option String
  dob : Option String
  class_name : Option String
  created_at : Nat
  updated_at : Nat
deriving DecidableEq

/-- Database state: the table rows plus the next AUTO_INCREMENT id. -/
structure DB where
  rows : List Student
  nextId : Nat
deriving DecidableEq

/-- JSON request body for create/update.  `none` models an absent (or
`null`/`undefined`) field; the source destructures string fields, so each
present field is a string. -/
structure StudentBody where
  student_code : Option String
  full_name : Option String
  email : Option String
  dob : Option String
  class_name : Option String
deriving DecidableEq

def emptyBody : StudentBody := ⟨none, none, none, none, none⟩

/-- JavaScript truthiness of an optional string: `undefined`, `null` and
`""` are falsy, every other string is truthy. -/
def truthy : Option String → Bool
  | none => false
  | some s => !(s == "")

/-- The source's `x || null` normalization applied to an optional field:
a falsy value (absent or empty string) becomes SQL NULL. -/
def orNull (v : Option String) : Option String :=
  if truthy v then v else none

/-- JSON response bodies produced by the handlers. -/
inductive RespBody where
  | student (s : Student)
  | students (l : List Student)
  | msg (m : String)
  | serverErr (e : String)
  | okTrue
  | health (db : Bool)
  | healthFail (e : String)
  | text (t : String)
  | jsUndefined
deriving DecidableEq

structure Response where
  status : Nat
  body : RespBody
deriving DecidableEq

/-- Rendering of `res.json(rows[0])`: JS `undefined` when the row list was
empty (cannot happen in the sequential model, kept for faithfulness). -/
def jsonRow : Option Student → RespBody
  | some r => RespBody.student r
  | none => RespBody.jsUndefined

def requiredMsg : String := "student_code và full_name là bắt buộc"

def dupMsg : String := "student_code đã tồn tại"

def notFoundMsg : String := "Not found"

/-- All suffixes of a list, longest first (the list itself down to `[]`). -/
def suffixes : List Char → List (List Char)
  | [] => [[]]
  | c :: cs => (c :: cs) :: suffixes cs

def isPrefixList : List Char → List Char → Bool
  | [], _ => true
  | _ :: _, [] => false
  | p :: ps, c :: cs => p == c && isPrefixList ps cs

/-- Substring containment, as JS `String.prototype.includes`: some suffix
of `s` has `q` as a prefix. -/
def containsSub (q s : List Char) : Bool :=
  (suffixes s).any (fun t => isPrefixList q t)

def containsStr (q s : String) : Bool := containsSub q.toList s.toList

/-- The source detects a duplicate-key failure by
`String(e).includes("ER_DUP_ENTRY")`. -/
def isDupEntry (e : String) : Bool := containsStr "ER_DUP_ENTRY" e

/-- MySQL `LIKE` pattern matching (binary/case-sensitive collation model):
`%` matches any sequence, `_` any single character, `\` escapes the next
pattern character; other characters match themselves. -/
def likeMatch : List Char → List Char → Bool
  | [], s => s.isEmpty
  | p :: ps, s =>
    if p = '%' then (suffixes s).any (fun t => likeMatch ps t)
    else if p = '\\' then
      match ps with
      | pe :: ps2 =>
        match s with
        | c :: cs => pe == c && likeMatch ps2 cs
        | [] => false
      | [] => s == [ '\\' ]
    else if p = '_' then
      match s with
      | [] => false
      | _ :: cs => likeMatch ps cs
    else
      match s with
      | [] => false
      | c :: cs => p == c && likeMatch ps cs

def sqlLike (pat s : String) : Bool := likeMatch pat.toList s.toList

/-- Pattern characters that are literal under `LIKE` (no `%`, `_` or
escape character). -/
def literalPat (l : List Char) : Bool :=
  l.all (fun c => !(c == '%') && !(c == '_') && !(c == '\\'))

/-- JS `String.prototype.trim` (ASCII whitespace model). -/
def jsTrim (s : String) : String :=
  ⟨((s.toList.dropWhile Char.isWhitespace).reverse.dropWhile
      Char.isWhitespace).reverse⟩

def digitsVal (l : List Char) : Nat :=
  l.foldl (fun a c => a * 10 + (c.toNat - 48)) 0

/-- Unsigned decimal literal of JS `Number(...)` as an exact scaled
decimal `(mantissa, exponent)` denoting `mantissa / 10 ^ exponent`:
accepted forms are digits, `digits.digits`, `.digits` and `digits.`;
anything else is NaN (`none`).  Hexadecimal, exponent and `Infinity` forms
are not exercised by this service's inputs and are omitted. -/
def parseUnsigned (l : List Char) : Option (ℤ × ℕ) :=
  let ip := l.takeWhile (fun c => !(c == '.'))
  match l.dropWhile (fun c => !(c == '.')) with
  | [] =>
    if !ip.isEmpty && ip.all Char.isDigit then
      some ((digitsVal ip : ℤ), 0)
    else none
  | _ :: fp =>
    if ip.isEmpty && fp.isEmpty then none
    else if ip.all Char.isDigit && fp.all Char.isDigit then
      some ((digitsVal ip * 10 ^ fp.length + digitsVal fp : ℤ), fp.length)
    else none

/-- JS `Number(string)` on the decimal fragment: `none` is NaN.  The
whitespace-trimmed empty string converts to `0`. -/
def jsNumber (s : String) : Option (ℤ × ℕ) :=
  match (jsTrim s).toList with
  | [] => some (0, 0)
  | '+' :: rest => parseUnsigned rest
  | '-' :: rest => (parseUnsigned rest).map (fun p => (-p.1, p.2))
  | l => parseUnsigned l

/-- Rational value denoted by a scaled decimal. -/
def jsDenote (p : ℤ × ℕ) : ℚ := (p.1 : ℚ) / (10 : ℚ) ^ p.2

/-- Comparison `id = ?` between the JS id value bound into the query and an
integer row id: `mantissa / 10 ^ exponent = n`, cleared of the nonzero
denominator; NaN matches nothing.  `idMatches_denote` below checks this
against the rational value. -/
def idMatches (v : Option (ℤ × ℕ)) (n : Nat) : Bool :=
  match v with
  | none => false
  | some p => p.1 == (n : ℤ) * 10 ^ p.2

def insertById (s : Student) : List Student → List Student
  | [] => [s]
  | t :: ts => if s.id ≤ t.id then s :: t :: ts else t :: insertById s ts

/-- `ORDER BY id ASC`. -/
def sortById : List Student → List Student
  | [] => []
  | s :: ss => insertById s (sortById ss)

/-- `SELECT ... WHERE id = ?` with an integer id parameter. -/
def fetchById (rows : List Student) (i : Nat) : List Student :=
  rows.filter (fun r => r.id == i)

-- -------------------- handlers --------------------

/-- GET /api/students: `q` trimmed and falsy-checked; non-empty `q` filters
by `full_name LIKE CONCAT(CHAR(37), q, CHAR(37))`, else all rows; both
ordered by ascending id.  No `try/catch`: a query error escapes. -/
def listStudents (db : DB) (q : Option String) (dbErr : Option String) :
    Except String Response :=
  match dbErr with
  | some e => Except.error e
  | none =>
    let qt := jsTrim (q.getD "")
    if qt = "" then Except.ok ⟨200, RespBody.students (sortById db.rows)⟩
    else
      Except.ok ⟨200, RespBody.students
        ((sortById db.rows).filter
          (fun r => sqlLike ("%" ++ qt ++ "%") r.full_name))⟩

/-- GET /api/students/:id.  No `try/catch`: a query error escapes. -/
def getStudent (db : DB) (idStr : String) (dbErr : Option String) :
    Except String Response :=
  match dbErr with
  | some e => Except.error e
  | none =>
    let found := db.rows.filter (fun r => idMatches (jsNumber idStr) r.id)
    match found.head? with
    | none => Except.ok ⟨404, RespBody.msg notFoundMsg⟩
    | some r => Except.ok ⟨200, RespBody.student r⟩

/-- Row inserted by the create handler: fresh id, required fields as sent,
optional fields `|| null`-normalized, server timestamps. -/
def mkInserted (db : DB) (b : StudentBody) (t : Nat) : Student :=
  ⟨db.nextId, b.student_code.getD "", b.full_name.getD "",
   orNull b.email, orNull b.dob, orNull b.class_name, t, t⟩

/-- POST /api/students.  Validation before any SQL; INSERT then re-fetch by
`result.insertId` inside `try/catch`; `ER_DUP_ENTRY` in the error string
gives 409, any other error 500.  The third component lists the SQL
statements issued. -/
def createStudent (db : DB) (body : Option StudentBody) (t : Nat)
    (dbErr : Option String) : Except String (Response × DB × List String) :=
  let b := body.getD emptyBody
  if !(truthy b.student_code) || !(truthy b.full_name) then
    Except.ok (⟨400, RespBody.msg requiredMsg⟩, db, [])
  else
    match dbErr with
    | some e =>
      if isDupEntry e then
        Except.ok (⟨409, RespBody.msg dupMsg⟩, db, ["INSERT"])
      else Except.ok (⟨500, RespBody.serverErr e⟩, db, ["INSERT"])
    | none =>
      let db2 : DB := ⟨db.rows ++ [mkInserted db b t], db.nextId + 1⟩
      Except.ok (⟨201, jsonRow (fetchById db2.rows db.nextId).head?⟩, db2,
        ["INSERT", "SELECT"])

/-- Effect of the single UPDATE statement on one matched row: all five
mutable columns replaced (the `updated_at` column is refreshed by the
schema's ON UPDATE clause, modelled here directly). -/
def applyUpdate (b : StudentBody) (t : Nat) (r : Student) : Student :=
  { r with
    student_code := b.student_code.getD ""
    full_name := b.full_name.getD ""
    email := orNull b.email
    dob := orNull b.dob
    class_name := orNull b.class_name
    updated_at := t }

def updatedRows (db : DB) (v : Option (ℤ × ℕ)) (b : StudentBody) (t : Nat) :
    List Student :=
  db.rows.map (fun r => if idMatches v r.id then applyUpdate b t r else r)

/-- PUT /api/students/:id.  Same validation as create; one UPDATE of all
five fields; `affectedRows = 0` gives 404, else re-fetch by id; error
translation as in create. -/
def updateStudent (db : DB) (idStr : String) (body : Option StudentBody)
    (t : Nat) (dbErr : Option String) :
    Except String (Response × DB × List String) :=
  let v := jsNumber idStr
  let b := body.getD emptyBody
  if !(truthy b.student_code) || !(truthy b.full_name) then
    Except.ok (⟨400, RespBody.msg requiredMsg⟩, db, [])
  else
    match dbErr with
    | some e =>
      if isDupEntry e then
        Except.ok (⟨409, RespBody.msg dupMsg⟩, db, ["UPDATE"])
      else Except.ok (⟨500, RespBody.serverErr e⟩, db, ["UPDATE"])
    | none =>
      if (db.rows.filter (fun r => idMatches v r.id)).length = 0 then
        Except.ok (⟨404, RespBody.msg notFoundMsg⟩, db, ["UPDATE"])
      else
        let db2 : DB := ⟨updatedRows db v b t, db.nextId⟩
        Except.ok
          (⟨200, jsonRow
              ((db2.rows.filter (fun r => idMatches v r.id)).head?)⟩, db2,
           ["UPDATE", "SELECT"])

/-- DELETE /api/students/:id.  No `try/catch`: a query error escapes.
Zero affected rows gives 404, else `{ok:true}`. -/
def deleteStudent (db : DB) (idStr : String) (dbErr : Option String) :
    Except String (Response × DB) :=
  match dbErr with
  | some e => Except.error e
  | none =>
    let v := jsNumber idStr
    let kept := db.rows.filter (fun r => !(idMatches v r.id))
    if kept.length = db.rows.length then
      Except.ok (⟨404, RespBody.msg notFoundMsg⟩, db)
    else Except.ok (⟨200, RespBody.okTrue⟩, ⟨kept, db.nextId⟩)

/-- GET /healthz: `SELECT 1 AS ok` inside `try/catch`; on success the row
is `{ok:1}` so `db` is reported `true`; on error, 500 `{ok:false,error}`. -/
def healthz (dbErr : Option String) : Except String Response :=
  match dbErr with
  | some e => Except.ok ⟨500, RespBody.healthFail e⟩
  | none => Except.ok ⟨200, RespBody.health true⟩

/-- GET /metrics: serializes the registry snapshot; a serialization failure
is caught and answered with a 500 plain-text body. -/
def metricsEndpoint (snapshot : Except String String) :
    Except String Response :=
  match snapshot with
  | Except.ok s => Except.ok ⟨200, RespBody.text s⟩
  | Except.error _ => Except.ok ⟨500, RespBody.text "Error generating metrics"⟩

-- -------------------- middleware --------------------

/-- Correlation id chosen by the logging middleware:
`req.header("x-request-id") || uuidv4()`. -/
def requestIdFor (inbound : Option String) (fresh : String) : String :=
  if truthy inbound then inbound.getD fresh else fresh

/-- Observable effects of the two non-route middlewares on one request:
the `X-Request-Id` response header (if set), whether a log line is emitted,
and whether the duration histogram records the request.  Both middlewares
skip requests whose path is `/metrics`. -/
structure MiddlewareEffects where
  requestIdHeader : Option String
  logEmitted : Bool
  durationRecorded : Bool
deriving DecidableEq

def middlewareEffects (path : String) (inbound : Option String)
    (fresh : String) : MiddlewareEffects :=
  ⟨if path = "/metrics" then none else some (requestIdFor inbound fresh),
   !(path == "/metrics"),
   !(path == "/metrics")⟩

/-- Status projection of a create/update handler result (0 when the error
escaped, which cannot happen for these two handlers). -/
def statusOf (r : Except String (Response × DB × List String)) : Nat :=
  match r with
  | Except.ok (resp, _, _) => resp.status
  | Except.error _ => 0

/-- True when a handler completed with an HTTP response instead of letting
an error escape. -/
def isOk {a : Type} : Except String a → Bool
  | Except.ok _ => true
  | Except.error _ => false

-- -------------------- concrete sample data --------------------

def emptyDb : DB := ⟨[], 1⟩

def sampleBody : StudentBody :=
  ⟨some "S1", some "Anna Lee", some "", none, some "10A"⟩

def sampleRow : Student := ⟨1, "S1", "Anna", none, none, none, 0, 0⟩

def oneRowDb : DB := ⟨[sampleRow], 2⟩

-- -------------------- helper lemmas --------------------

/-- Sanity check of the cleared-denominator id comparison: it agrees with
equality of the denoted rational value and the integer row id. -/
theorem idMatches_denote (p : ℤ × ℕ) (n : ℕ) :
    idMatches (some p) n = true ↔ jsDenote p = (n : ℚ) := by
  constructor
  · intro h
    have h2 : p.1 = (n : ℤ) * 10 ^ p.2 := by simpa [idMatches] using h
    rw [jsDenote, h2]
    push_cast
    field_simp
  · intro h
    rw [jsDenote] at h
    rw [div_eq_iff (by positivity)] at h
    have h2 : p.1 = (n : ℤ) * 10 ^ p.2 := by exact_mod_cast h
    simp [idMatches, h2]

theorem suffixes_any_empty (s : List Char) :
    (suffixes s).any (fun t => t.isEmpty) = true := by
  induction s with
  | nil => rfl
  | cons c cs ih => simpa [suffixes] using ih

theorem likeMatch_nil_pat (s : List Char) : likeMatch [] s = s.isEmpty := by
  cases s <;> rfl

theorem likeMatch_pct (ps s : List Char) :
    likeMatch ('%' :: ps) s = (suffixes s).any (fun t => likeMatch ps t) := by
  cases ps <;> cases s <;> simp [likeMatch]

theorem likeMatch_str_nil (p : Char) (ps : List Char) (h1 : p ≠ '%') :
    likeMatch (p :: ps) [] = false := by
  cases ps <;> simp [likeMatch, h1]

theorem likeMatch_lit_cons (p : Char) (ps : List Char) (a : Char)
    (s : List Char) (h1 : p ≠ '%') (h2 : p ≠ '\\') (h3 : p ≠ '_') :
    likeMatch (p :: ps) (a :: s) = (p == a && likeMatch ps s) := by
  cases ps <;> simp [likeMatch, h1, h2, h3]

theorem isPrefixList_nil (s : List Char) : isPrefixList [] s = true := by
  cases s <;> rfl

/-- A wildcard-free pattern followed by a single `%` matches exactly the
strings it prefixes. -/
theorem likeMatch_literal (q : List Char) (s : List Char)
    (hq : literalPat q = true) :
    likeMatch (q ++ [ '%' ]) s = isPrefixList q s := by
  induction q generalizing s with
  | nil =>
    rw [List.nil_append, likeMatch_pct, isPrefixList_nil]
    simp only [likeMatch_nil_pat]
    exact suffixes_any_empty s
  | cons c q ih =>
    simp only [literalPat, List.all_cons, Bool.and_eq_true, Bool.not_eq_true',
      beq_eq_false_iff_ne, ne_eq] at hq
    obtain ⟨⟨⟨h1, h2⟩, h3⟩, hrest⟩ := hq
    have ih2 := fun s => ih s hrest
    cases s with
    | nil =>
      rw [List.cons_append, likeMatch_str_nil c (q ++ [ '%' ]) h1]
      rfl
    | cons a s =>
      rw [List.cons_append, likeMatch_lit_cons c (q ++ [ '%' ]) a s h1 h3 h2,
        ih2 s]
      rfl

/-- For a wildcard-free needle `q`, the `LIKE` pattern percent-q-percent is
substring containment. -/
theorem likeMatch_contains (q s : List Char) (hq : literalPat q = true) :
    likeMatch ('%' :: (q ++ [ '%' ])) s = containsSub q s := by
  rw [likeMatch_pct]
  unfold containsSub
  congr 1
  funext t
  exact likeMatch_literal q t hq

theorem toList_pct (s : String) :
    ("%" ++ s ++ "%").toList = '%' :: (s.toList ++ [ '%' ]) := by
  cases s
  simp [String.toList]

-- -------------------- claim theorems --------------------

/-- C1: a POST with truthy `student_code` and `full_name` (and the
generated id fresh, as AUTO_INCREMENT guarantees) succeeds with status 201,
a body equal to the row re-fetched by the generated insert id, the row
appended to the table, and every optional field normalized by `|| null`,
which maps both the absent field and the empty string to NULL. -/
theorem create_success (db : DB) (b : StudentBody) (t : Nat)
    (hc : truthy b.student_code = true) (hn : truthy b.full_name = true)
    (hfresh : ∀ r ∈ db.rows, r.id ≠ db.nextId) :
    createStudent db (some b) t none =
      Except.ok (⟨201, RespBody.student (mkInserted db b t)⟩,
        ⟨db.rows ++ [mkInserted db b t], db.nextId + 1⟩,
        ["INSERT", "SELECT"]) ∧
    (fetchById (db.rows ++ [mkInserted db b t]) db.nextId).head? =
      some (mkInserted db b t) ∧
    (mkInserted db b t).id = db.nextId ∧
    (mkInserted db b t).email = orNull b.email ∧
    (mkInserted db b t).dob = orNull b.dob ∧
    (mkInserted db b t).class_name = orNull b.class_name ∧
    orNull (some "") = none ∧ orNull none = none := by
  have hnil : db.rows.filter (fun r => r.id == db.nextId) = [] := by
    rw [List.filter_eq_nil_iff]
    intro r hr
    simp [hfresh r hr]
  have hfetch : fetchById (db.rows ++ [mkInserted db b t]) db.nextId =
      [mkInserted db b t] := by
    simp only [fetchById, List.filter_append, hnil]
    simp [mkInserted]
  refine ⟨?_, ?_, rfl, rfl, rfl, rfl, rfl, rfl⟩
  · simp [createStudent, hc, hn, hfetch, jsonRow]
  · rw [hfetch]
    rfl

theorem create_success_witness :
    truthy sampleBody.student_code = true ∧
    truthy sampleBody.full_name = true ∧
    (∀ r ∈ emptyDb.rows, r.id ≠ emptyDb.nextId) ∧
    createStudent emptyDb (some sampleBody) 5 none =
      Except.ok (⟨201, RespBody.student (mkInserted emptyDb sampleBody 5)⟩,
        ⟨emptyDb.rows ++ [mkInserted emptyDb sampleBody 5],
          emptyDb.nextId + 1⟩, ["INSERT", "SELECT"]) :=
  ⟨by decide, by decide, fun r hr => absurd hr (List.not_mem_nil r),
    (create_success emptyDb sampleBody 5 (by decide) (by decide)
      (fun r hr => absurd hr (List.not_mem_nil r))).1⟩

/-- C2 counterexample: the claim says a whitespace-only `student_code` is
rejected with 400 after trimming, but the handlers perform a plain JS falsy
check with no trimming: the create handler accepts the body whose
`student_code` is a single space and answers 201. -/
theorem whitespace_passes_validation :
    statusOf (createStudent emptyDb
      (some ⟨some " ", some "Anna", none, none, none⟩) 0 none) = 201 := by
  decide

/-- C2 (amended): if `student_code` or `full_name` is absent or the empty
string (JS-falsy), both the create and the update handler answer 400 with
the validation message, leave the database unchanged and issue no SQL,
regardless of the other fields, the id, or the persistence layer. -/
theorem required_falsy_rejected (db : DB) (idStr : String) (b : StudentBody)
    (t : Nat) (err : Option String)
    (h : truthy b.student_code = false ∨ truthy b.full_name = false) :
    createStudent db (some b) t err =
      Except.ok (⟨400, RespBody.msg requiredMsg⟩, db, []) ∧
    updateStudent db idStr (some b) t err =
      Except.ok (⟨400, RespBody.msg requiredMsg⟩, db, []) := by
  rcases h with h | h <;>
    exact ⟨by simp [createStudent, h], by simp [updateStudent, h]⟩

theorem required_falsy_rejected_witness :
    truthy (some "") = false ∧
    createStudent emptyDb (some ⟨some "", some "Anna", none, none, none⟩)
      0 none = Except.ok (⟨400, RespBody.msg requiredMsg⟩, emptyDb, []) :=
  ⟨by decide,
    (required_falsy_rejected emptyDb "1"
      ⟨some "", some "Anna", none, none, none⟩ 0 none (Or.inl (by decide))).1⟩

/-- C3: when the persistence layer raises an error on a validated create or
update, the response is 409 with the duplicate message if the error string
contains ER_DUP_ENTRY and 500 with the error detail in the body otherwise;
the status is 409 exactly when the duplicate signature is present. -/
theorem persistence_error_translated (db : DB) (idStr : String)
    (b : StudentBody) (t : Nat) (e : String)
    (hc : truthy b.student_code = true) (hn : truthy b.full_name = true) :
    createStudent db (some b) t (some e) =
      Except.ok ((if isDupEntry e then (⟨409, RespBody.msg dupMsg⟩ : Response)
        else ⟨500, RespBody.serverErr e⟩), db, ["INSERT"]) ∧
    updateStudent db idStr (some b) t (some e) =
      Except.ok ((if isDupEntry e then (⟨409, RespBody.msg dupMsg⟩ : Response)
        else ⟨500, RespBody.serverErr e⟩), db, ["UPDATE"]) ∧
    (statusOf (createStudent db (some b) t (some e)) = 409 ↔
      isDupEntry e = true) ∧
    (statusOf (updateStudent db idStr (some b) t (some e)) = 409 ↔
      isDupEntry e = true) := by
  cases hdup : isDupEntry e <;>
    simp [createStudent, updateStudent, statusOf, hc, hn, hdup]

theorem persistence_error_translated_witness :
    truthy sampleBody.student_code = true ∧
    truthy sampleBody.full_name = true ∧
    (statusOf (createStudent emptyDb (some sampleBody) 0
        (some "Error: ER_DUP_ENTRY: duplicate entry")) = 409 ↔
      isDupEntry "Error: ER_DUP_ENTRY: duplicate entry" = true) :=
  ⟨by decide, by decide,
    (persistence_error_translated emptyDb "1" sampleBody 0
      "Error: ER_DUP_ENTRY: duplicate entry" (by decide) (by decide)).2.2.1⟩

/-- C10: a create or update whose effective body (after the
`req.body || {}` defaulting) fails the required-field check answers 400
with the database unchanged and no SQL issued, and an absent body behaves
exactly like the empty object rather than raising an exception. -/
theorem validation_before_sql (db : DB) (idStr : String)
    (body : Option StudentBody) (t : Nat) (err : Option String)
    (h : truthy ((body.getD emptyBody).student_code) = false ∨
      truthy ((body.getD emptyBody).full_name) = false) :
    createStudent db body t err =
      Except.ok (⟨400, RespBody.msg requiredMsg⟩, db, []) ∧
    updateStudent db idStr body t err =
      Except.ok (⟨400, RespBody.msg requiredMsg⟩, db, []) ∧
    createStudent db none t err = createStudent db (some emptyBody) t err ∧
    updateStudent db idStr none t err =
      updateStudent db idStr (some emptyBody) t err := by
  refine ⟨?_, ?_, rfl, rfl⟩ <;> rcases h with h | h <;>
    simp [createStudent, updateStudent, h]

/-- C4: a validated update issues one UPDATE statement that replaces all
five mutable fields of every row matching the id; zero affected rows gives
404 with the database unchanged, otherwise 200 with the row re-fetched by
the same id from the updated table. -/
theorem update_valid_semantics (db : DB) (idStr : String) (b : StudentBody)
    (t : Nat) (hc : truthy b.student_code = true)
    (hn : truthy b.full_name = true) :
    ((db.rows.filter (fun r => idMatches (jsNumber idStr) r.id)).length = 0 →
      updateStudent db idStr (some b) t none =
        Except.ok (⟨404, RespBody.msg notFoundMsg⟩, db, ["UPDATE"])) ∧
    ((db.rows.filter (fun r => idMatches (jsNumber idStr) r.id)).length ≠ 0 →
      updateStudent db idStr (some b) t none =
        Except.ok (⟨200, jsonRow
            (((updatedRows db (jsNumber idStr) b t).filter
              (fun r => idMatches (jsNumber idStr) r.id)).head?)⟩,
          ⟨updatedRows db (jsNumber idStr) b t, db.nextId⟩,
          ["UPDATE", "SELECT"])) ∧
    (∀ r : Student,
      (applyUpdate b t r).student_code = b.student_code.getD "" ∧
      (applyUpdate b t r).full_name = b.full_name.getD "" ∧
      (applyUpdate b t r).email = orNull b.email ∧
      (applyUpdate b t r).dob = orNull b.dob ∧
      (applyUpdate b t r).class_name = orNull b.class_name ∧
      (applyUpdate b t r).id = r.id ∧
      (applyUpdate b t r).created_at = r.created_at) := by
  refine ⟨fun h0 => ?_, fun h0 => ?_,
    fun r => ⟨rfl, rfl, rfl, rfl, rfl, rfl, rfl⟩⟩
  · simp [updateStudent, hc, hn, h0]
  · simp [updateStudent, hc, hn, h0]

theorem update_valid_semantics_witness :
    truthy sampleBody.student_code = true ∧
    truthy sampleBody.full_name = true ∧
    ((oneRowDb.rows.filter
        (fun r => idMatches (jsNumber "1") r.id)).length ≠ 0 →
      updateStudent oneRowDb "1" (some sampleBody) 9 none =
        Except.ok (⟨200, jsonRow
            (((updatedRows oneRowDb (jsNumber "1") sampleBody 9).filter
              (fun r => idMatches (jsNumber "1") r.id)).head?)⟩,
          ⟨updatedRows oneRowDb (jsNumber "1") sampleBody 9,
            oneRowDb.nextId⟩, ["UPDATE", "SELECT"])) :=
  ⟨by decide, by decide,
    (update_valid_semantics oneRowDb "1" sampleBody 9
      (by decide) (by decide)).2.1⟩

/-- C5 counterexample: the query string is interpolated into a `LIKE`
pattern without escaping, so the claimed equivalence with the plain
substring filter fails for every `q` containing a wildcard: with one row
whose `full_name` is "A", the search for the underscore wildcard returns
the row although "A" does not contain the underscore as a substring. -/
theorem like_wildcard_breaks_substring :
    listStudents oneRowDb (some "_") none ≠
      Except.ok ⟨200, RespBody.students ((sortById oneRowDb.rows).filter
        (fun r => containsStr "_" r.full_name))⟩ := by
  decide

/-- C5 (amended): with no or whitespace-only `q` the list handler returns
all rows ordered by ascending id; with a non-empty trimmed `q` free of the
`LIKE` metacharacters percent, underscore and backslash, it returns exactly
the rows whose `full_name` contains the trimmed `q` as a substring, in the
same ascending-id order as the unfiltered list. -/
theorem list_search_substring (db : DB) (q q2 : String)
    (hq : jsTrim q ≠ "") (hlit : literalPat (jsTrim q).toList = true)
    (hw : jsTrim q2 = "") :
    listStudents db (some q) none =
      Except.ok ⟨200, RespBody.students ((sortById db.rows).filter
        (fun r => containsStr (jsTrim q) r.full_name))⟩ ∧
    listStudents db none none =
      Except.ok ⟨200, RespBody.students (sortById db.rows)⟩ ∧
    listStudents db (some q2) none =
      Except.ok ⟨200, RespBody.students (sortById db.rows)⟩ := by
  refine ⟨?_, rfl, by simp [listStudents, hw]⟩
  have hfilter : (fun (r : Student) =>
      sqlLike ("%" ++ jsTrim q ++ "%") r.full_name) =
      fun r => containsStr (jsTrim q) r.full_name := by
    funext r
    rw [sqlLike, toList_pct, likeMatch_contains _ _ hlit, containsStr]
  simp only [listStudents, Option.getD]
  rw [if_neg hq, hfilter]

theorem list_search_substring_witness :
    jsTrim " Anna " ≠ "" ∧
    literalPat (jsTrim " Anna ").toList = true ∧
    jsTrim "  " = "" ∧
    listStudents oneRowDb (some " Anna ") none =
      Except.ok ⟨200, RespBody.students ((sortById oneRowDb.rows).filter
        (fun r => containsStr (jsTrim " Anna ") r.full_name))⟩ :=
  ⟨by decide, by decide, by decide,
    (list_search_substring oneRowDb " Anna " "  "
      (by decide) (by decide) (by decide)).1⟩

/-- C6: a delete matching no row answers 404 and leaves the database
unchanged; a delete matching some row answers 200 with the ok
acknowledgment, and a subsequent GET by the same id on the resulting
database answers 404. -/
theorem delete_then_get (db : DB) (idStr : String) :
    ((∀ r ∈ db.rows, idMatches (jsNumber idStr) r.id = false) →
      deleteStudent db idStr none =
        Except.ok (⟨404, RespBody.msg notFoundMsg⟩, db)) ∧
    ((∃ r ∈ db.rows, idMatches (jsNumber idStr) r.id = true) →
      ∃ db2 : DB,
        deleteStudent db idStr none = Except.ok (⟨200, RespBody.okTrue⟩, db2) ∧
        getStudent db2 idStr none =
          Except.ok ⟨404, RespBody.msg notFoundMsg⟩) := by
  constructor
  · intro h
    have hk : db.rows.filter
        (fun r => !(idMatches (jsNumber idStr) r.id)) = db.rows :=
      List.filter_eq_self.mpr (fun r hr => by simp [h r hr])
    simp [deleteStudent, hk]
  · rintro ⟨r0, hr0, hm⟩
    have hlt : (db.rows.filter
        (fun r => !(idMatches (jsNumber idStr) r.id))).length <
        db.rows.length := by
      refine List.length_filter_lt_length_iff_exists.mpr ⟨r0, hr0, ?_⟩
      simp [hm]
    refine ⟨⟨db.rows.filter (fun r => !(idMatches (jsNumber idStr) r.id)),
      db.nextId⟩, ?_, ?_⟩
    · simp only [deleteStudent]
      rw [if_neg (Nat.ne_of_lt hlt)]
    · simp [getStudent, List.filter_filter]

theorem delete_then_get_witness :
    (∃ r ∈ oneRowDb.rows, idMatches (jsNumber "1") r.id = true) ∧
    (∃ db2 : DB,
      deleteStudent oneRowDb "1" none =
        Except.ok (⟨200, RespBody.okTrue⟩, db2) ∧
      getStudent db2 "1" none =
        Except.ok ⟨404, RespBody.msg notFoundMsg⟩) :=
  ⟨⟨sampleRow, by simp [oneRowDb], by decide⟩,
    (delete_then_get oneRowDb "1").2 ⟨sampleRow, by simp [oneRowDb], by decide⟩⟩

theorem validation_before_sql_witness :
    truthy (((none : Option StudentBody)).getD emptyBody).student_code =
      false ∧
    createStudent emptyDb none 0 none =
      Except.ok (⟨400, RespBody.msg requiredMsg⟩, emptyDb, []) :=
  ⟨by decide,
    (validation_before_sql emptyDb "1" none 0 none (Or.inl (by decide))).1⟩

/-- C7 counterexample: the list handler wraps its query in no `try/catch`,
so an injected persistence error escapes the handler instead of being
translated into an HTTP response. -/
theorem list_error_escapes :
    listStudents emptyDb none (some "boom") = Except.error "boom" := rfl

/-- C7 (amended): the create, update, healthz and metrics handlers catch
every injected persistence or serialization error and answer with an HTTP
response, but the list/search, get-by-id and delete handlers issue their
queries outside any `try/catch`, so a persistence error raised there
escapes the handler. -/
theorem handler_error_catching (db : DB) (idStr q e : String)
    (body : Option StudentBody) (t : Nat) :
    isOk (createStudent db body t (some e)) = true ∧
    isOk (updateStudent db idStr body t (some e)) = true ∧
    isOk (healthz (some e)) = true ∧
    isOk (metricsEndpoint (Except.error e)) = true ∧
    listStudents db (some q) (some e) = Except.error e ∧
    getStudent db idStr (some e) = Except.error e ∧
    deleteStudent db idStr (some e) = Except.error e := by
  refine ⟨?_, ?_, rfl, rfl, rfl, rfl, rfl⟩ <;>
    cases hv : (!(truthy ((body.getD emptyBody).student_code)) ||
        !(truthy ((body.getD emptyBody).full_name))) <;>
      cases hdup : isDupEntry e <;>
        simp [createStudent, updateStudent, isOk, hv, hdup]

/-- C8 counterexample: with an inbound x-request-id header that is present
but empty, the middleware sets a freshly generated id instead of echoing
the header, because the source uses the JS falsy `||` check. -/
theorem empty_header_not_echoed :
    (middlewareEffects "/api/students" (some "") "uuid-1").requestIdHeader ≠
      some "" := by
  decide

/-- C8 (amended): on every request whose path is not /metrics, the
X-Request-Id response header equals the inbound x-request-id header when
that header is present and non-empty, and a freshly generated id when the
header is absent or empty; such requests are logged and recorded in the
duration histogram, while a /metrics request gets no header, no log line
and no histogram sample. -/
theorem request_id_semantics (path : String) (inbound : Option String)
    (fresh : String) (hp : path ≠ "/metrics") :
    (∀ s : String, inbound = some s → s ≠ "" →
      (middlewareEffects path inbound fresh).requestIdHeader = some s) ∧
    (inbound = none ∨ inbound = some "" →
      (middlewareEffects path inbound fresh).requestIdHeader = some fresh) ∧
    (middlewareEffects path inbound fresh).logEmitted = true ∧
    (middlewareEffects path inbound fresh).durationRecorded = true ∧
    middlewareEffects "/metrics" inbound fresh =
      ⟨none, false, false⟩ := by
  refine ⟨?_, ?_, ?_, ?_, ?_⟩
  · rintro s rfl hs
    simp [middlewareEffects, requestIdFor, truthy, hp, hs]
  · rintro (rfl | rfl) <;>
      simp [middlewareEffects, requestIdFor, truthy, hp]
  · simp [middlewareEffects, hp]
  · simp [middlewareEffects, hp]
  · simp [middlewareEffects, requestIdFor]

theorem request_id_semantics_witness :
    ("/api/students" : String) ≠ "/metrics" ∧
    (middlewareEffects "/api/students" (some "req-7") "uuid-1").requestIdHeader =
      some "req-7" :=
  ⟨by decide,
    (request_id_semantics "/api/students" (some "req-7") "uuid-1"
      (by decide)).1 "req-7" rfl (by decide)⟩

/-- C9: the :id path parameter is converted with the JS Number conversion,
not integer parsing: a non-numeric string is NaN, a fractional string keeps
its exact decimal value unrounded (1.5 denotes 3/2) and matches no integer
row, and for an id value matching no row the GET, DELETE and validated PUT
handlers answer 404 NotFound (never 400) when the query succeeds. -/
theorem malformed_id_not_found (db : DB) (idStr : String) (b : StudentBody)
    (t : Nat) (hm : ∀ n : Nat, idMatches (jsNumber idStr) n = false)
    (hc : truthy b.student_code = true) (hn : truthy b.full_name = true) :
    jsNumber "abc" = none ∧
    jsNumber "1.5" = some (15, 1) ∧
    jsDenote (15, 1) = 3 / 2 ∧
    (∀ n : Nat, idMatches (some (15, 1)) n = false) ∧
    getStudent db idStr none = Except.ok ⟨404, RespBody.msg notFoundMsg⟩ ∧
    deleteStudent db idStr none =
      Except.ok (⟨404, RespBody.msg notFoundMsg⟩, db) ∧
    updateStudent db idStr (some b) t none =
      Except.ok (⟨404, RespBody.msg notFoundMsg⟩, db, ["UPDATE"]) := by
  have hfe : db.rows.filter
      (fun r => idMatches (jsNumber idStr) r.id) = [] :=
    List.filter_eq_nil_iff.mpr (fun r hr => by simp [hm r.id])
  have hke : db.rows.filter
      (fun r => !(idMatches (jsNumber idStr) r.id)) = db.rows :=
    List.filter_eq_self.mpr (fun r hr => by simp [hm r.id])
  refine ⟨by decide, by decide, by norm_num [jsDenote], ?_, ?_, ?_, ?_⟩
  · intro n
    simp [idMatches]
    omega
  · simp [getStudent, hfe]
  · simp [deleteStudent, hke]
  · simp [updateStudent, hc, hn, hfe]

theorem malformed_id_not_found_witness :
    (∀ n : Nat, idMatches (jsNumber "abc") n = false) ∧
    truthy sampleBody.student_code = true ∧
    truthy sampleBody.full_name = true ∧
    getStudent oneRowDb "abc" none =
      Except.ok ⟨404, RespBody.msg notFoundMsg⟩ :=
  ⟨fun _ => rfl, by decide, by decide,
    (malformed_id_not_found oneRowDb "abc" sampleBody 0 (fun _ => rfl)
      (by decide) (by decide)).2.2.2.2.1⟩

end StudentApi
